import Mathlib

/-!
Shallow embedding of the authentication core of the repository
(`src/src-tauri/src/auth.rs`): data model, the SQLite-backed store state,
and the four commands `register_user`, `login_user`, `logout_user`,
`get_current_user`, together with proofs of the specification claims.

Modelling conventions:
* SQL tables are lists of typed rows in insertion order; `query_row`
  returns the first matching row (`List.find?`), `INSERT` appends and
  reports a constraint error when a primary-key/unique constraint would
  be violated.
* SQL `REAL` columns are modelled as `Int`: the only values that occur
  are the integral schema defaults, and no arithmetic is performed.
* Rust `String::len` is UTF-8 byte length, modelled by
  `String.utf8ByteSize`; `String::is_empty` by `String.isEmpty`.
* The bcrypt library is an external collaborator; it is modelled by an
  abstract `Hasher` record, with the contract of §4.2 of the
  specification expressed as the predicate `Hasher.Sound`.
* `AUTOINCREMENT` ids are modelled by the monotone counter `next_id`;
  `datetime('now')` by an explicit `now : String` argument threaded into
  `register_user`.
-/

deriving instance DecidableEq for Except

/-- `User` from auth.rs lines 11-17: the serialised user snapshot
(`password_hash` is never part of it). -/
structure User where
  id : Int
  username : String
  email : String
  created_at : String
deriving DecidableEq, Repr

/-- `RegisterRequest` from auth.rs lines 19-24. -/
structure RegisterRequest where
  username : String
  email : String
  password : String
deriving DecidableEq, Repr

/-- `LoginRequest` from auth.rs lines 26-30. -/
structure LoginRequest where
  username : String
  password : String
deriving DecidableEq, Repr

/-- `AuthResponse` from auth.rs lines 32-37. -/
structure AuthResponse where
  success : Bool
  message : String
  user : Option User
deriving DecidableEq, Repr

/-- A row of the `users` table (schema in auth.rs lines 53-62). -/
structure UserRow where
  id : Int
  username : String
  email : String
  password_hash : String
  created_at : String
deriving DecidableEq, Repr

/-- A row of the `user_recipes` table (schema in auth.rs lines 64-83). -/
structure UserRecipeRow where
  id : String
  user_id : Int
  name : String
  description : Option String
  category : String
  components : String
  total_volume : Int
  volume_unit : String
  ph : Option Int
  instructions : Option String
  notes : Option String
  tags : Option String
  created_at : String
  modified_at : String
deriving DecidableEq, Repr

/-- A row of the `user_measurements` table (schema in auth.rs lines 85-103). -/
structure UserMeasurementRow where
  id : String
  user_id : Int
  protein_name : String
  date : String
  absorbance_280 : Int
  extinction_coefficient : Int
  molecular_weight : Int
  path_length : Int
  concentration : Int
  concentration_molar : Int
  notes : Option String
  sequence : Option String
  batch_number : Option String
deriving DecidableEq, Repr

/-- A row of the `user_preferences` table (schema in auth.rs lines 105-119). -/
structure UserPreferencesRow where
  user_id : Int
  default_volume : Int
  default_volume_unit : String
  default_concentration_unit : String
  recent_chemicals : Option String
  favorite_recipes : Option String
  theme : String
  scientific_notation : Int
  decimal_places : Int
deriving DecidableEq, Repr

/-- A `user_preferences` row inserted by
`INSERT INTO user_preferences (user_id) VALUES (?)` (auth.rs lines
185-188): every column other than `user_id` takes its schema default
from auth.rs lines 106-117. -/
def defaultUserPreferences (uid : Int) : UserPreferencesRow :=
  { user_id := uid
    default_volume := 100
    default_volume_unit := "mL"
    default_concentration_unit := "M"
    recent_chemicals := none
    favorite_recipes := none
    theme := "auto"
    scientific_notation := 0
    decimal_places := 4 }

/-- The shape of the SQL statements `DbState::new` can execute:
`CREATE TABLE IF NOT EXISTS` statements (recording whether the table
declares an `ON DELETE CASCADE` foreign key) and the SQLite pragma that
turns foreign-key enforcement on. -/
inductive SqlStmt where
  | createTableIfNotExists (table : String) (onDeleteCascade : Bool)
  | pragmaForeignKeysOn
deriving DecidableEq, Repr

/-- Whether a statement enables SQLite foreign-key enforcement. -/
def SqlStmt.enablesForeignKeys : SqlStmt → Bool
  | .pragmaForeignKeysOn => true
  | _ => false

/-- In-memory model of `DbState` (auth.rs lines 43-46): the four tables
of the database file, the `AUTOINCREMENT` counter for `users.id`, the
`current_user` session slot, and whether the connection has foreign-key
enforcement enabled (SQLite leaves it off unless a
`PRAGMA foreign_keys = ON` is executed). -/
structure DbState where
  users : List UserRow
  user_recipes : List UserRecipeRow
  user_measurements : List UserMeasurementRow
  user_preferences : List UserPreferencesRow
  next_id : Int
  current_user : Option User
  foreign_keys_on : Bool
deriving DecidableEq, Repr

/-- The statements executed by `DbState::new` (auth.rs lines 49-125),
in order: the four `CREATE TABLE IF NOT EXISTS` statements and nothing
else — in particular no `PRAGMA foreign_keys = ON`. -/
def DbState.newStmts : List SqlStmt :=
  [ .createTableIfNotExists "users" false
  , .createTableIfNotExists "user_recipes" true
  , .createTableIfNotExists "user_measurements" true
  , .createTableIfNotExists "user_preferences" true ]

/-- The state produced by `DbState::new` on a fresh database file:
empty tables, session empty, and foreign-key enforcement exactly if one
of the executed statements enables it. -/
def DbState.new : DbState :=
  { users := []
    user_recipes := []
    user_measurements := []
    user_preferences := []
    next_id := 1
    current_user := none
    foreign_keys_on := DbState.newStmts.any SqlStmt.enablesForeignKeys }

/-- Abstract model of the bcrypt password-hashing library used by
auth.rs (`bcrypt::hash`, `bcrypt::verify`), both fallible. -/
structure Hasher where
  hash : String → Except String String
  verify : String → String → Except String Bool

/-- The §4.2 contract of the password hasher: a digest produced from a
plaintext verifies positively against that plaintext and negatively
against every other plaintext (and those verifications do not error). -/
def Hasher.Sound (H : Hasher) : Prop :=
  ∀ p d, H.hash p = .ok d →
    H.verify p d = .ok true ∧ ∀ q, q ≠ p → H.verify q d = .ok false

/-- A concrete executable hasher satisfying `Hasher.Sound`, used to
instantiate witnesses: the digest is a tagged copy of the plaintext and
verification compares digests. -/
def bcryptModel : Hasher :=
  { hash := fun p => .ok ("$2b$12$" ++ p)
    verify := fun q d => .ok (("$2b$12$" ++ q) == d) }

/-- A hasher whose every operation errors, used to show that certain
code paths never invoke the hasher. -/
def failingHasher : Hasher :=
  { hash := fun _ => .error "hash failure"
    verify := fun _ _ => .error "verify failure" }

/-- `register_user` (auth.rs lines 132-215). Validation, password
hashing, a duplicate probe `SELECT id FROM users WHERE username = ? OR
email = ?`, insertion of the user row (with the `AUTOINCREMENT` id and
`datetime('now')` default), insertion of the default preferences row,
re-read of the created user by id, and finally the session update.
Constraint violations on the two inserts surface as command-level
errors, mirroring the `map_err` translations in the source. -/
def register_user (H : Hasher) (now : String) (request : RegisterRequest)
    (st : DbState) : Except String AuthResponse × DbState :=
  if request.username.isEmpty || request.password.isEmpty || request.email.isEmpty then
    (.ok { success := false
           message := "Username, email, and password are required"
           user := none }, st)
  else if request.password.utf8ByteSize < 6 then
    (.ok { success := false
           message := "Password must be at least 6 characters"
           user := none }, st)
  else
    match H.hash request.password with
    | .error e => (.error ("Failed to hash password: " ++ e), st)
    | .ok password_hash =>
      match st.users.find? (fun row =>
          row.username == request.username || row.email == request.email) with
      | some _ =>
        (.ok { success := false
               message := "Username or email already exists"
               user := none }, st)
      | none =>
        if st.users.any (fun row => row.id == st.next_id) then
          (.error "Failed to create user: UNIQUE constraint failed: users.id", st)
        else
          let user_id := st.next_id
          let newRow : UserRow :=
            { id := user_id
              username := request.username
              email := request.email
              password_hash := password_hash
              created_at := now }
          let st1 : DbState :=
            { st with users := st.users ++ [newRow], next_id := st.next_id + 1 }
          if st1.user_preferences.any (fun pr => pr.user_id == user_id) then
            (.error "Failed to create user preferences: UNIQUE constraint failed: user_preferences.user_id", st1)
          else
            let st2 : DbState :=
              { st1 with user_preferences :=
                  st1.user_preferences ++ [defaultUserPreferences user_id] }
            match st2.users.find? (fun row => row.id == user_id) with
            | none => (.error "Failed to fetch user: Query returned no rows", st2)
            | some row =>
              let user : User :=
                { id := row.id
                  username := row.username
                  email := row.email
                  created_at := row.created_at }
              (.ok { success := true
                     message := "Registration successful"
                     user := some user },
               { st2 with current_user := some user })

/-- `login_user` (auth.rs lines 217-284). Validation, a single-row
query `SELECT ... FROM users WHERE username = ?`, password verification
(whose errors propagate as command-level errors), and on a positive
match the session update. Both the unknown-username and the
wrong-password outcomes return the same generic response. -/
def login_user (H : Hasher) (request : LoginRequest) (st : DbState) :
    Except String AuthResponse × DbState :=
  if request.username.isEmpty || request.password.isEmpty then
    (.ok { success := false
           message := "Username and password are required"
           user := none }, st)
  else
    match st.users.find? (fun row => row.username == request.username) with
    | some row =>
      match H.verify request.password row.password_hash with
      | .error e => (.error ("Password verification error: " ++ e), st)
      | .ok password_valid =>
        if !password_valid then
          (.ok { success := false
                 message := "Invalid username or password"
                 user := none }, st)
        else
        let user : User :=
          { id := row.id
            username := row.username
            email := row.email
            created_at := row.created_at }
        (.ok { success := true
               message := "Login successful"
               user := some user },
         { st with current_user := some user })
    | none =>
      (.ok { success := false
             message := "Invalid username or password"
             user := none }, st)

/-- `logout_user` (auth.rs lines 286-295): unconditionally clears the
session slot and reports success. -/
def logout_user (st : DbState) : Except String AuthResponse × DbState :=
  (.ok { success := true
         message := "Logged out successfully"
         user := none },
   { st with current_user := none })

/-- `get_current_user` (auth.rs lines 297-301): returns a clone of the
session slot and changes nothing. -/
def get_current_user (st : DbState) : Except String (Option User) × DbState :=
  (.ok st.current_user, st)

/-- Model of the SQL statement `DELETE FROM users WHERE id = ?` under
SQLite semantics: the `ON DELETE CASCADE` clauses declared by the
schema (auth.rs lines 80, 100, 116) delete the referencing child rows
only when the connection has `PRAGMA foreign_keys = ON`; otherwise the
clauses are inert and the child rows remain. -/
def delete_user_row (st : DbState) (uid : Int) : DbState :=
  let st' : DbState := { st with users := st.users.filter (fun row => !(row.id == uid)) }
  if st.foreign_keys_on then
    { st' with
      user_preferences := st'.user_preferences.filter (fun pr => !(pr.user_id == uid))
      user_recipes := st'.user_recipes.filter (fun rc => !(rc.user_id == uid))
      user_measurements := st'.user_measurements.filter (fun m => !(m.user_id == uid)) }
  else st'

/-- One command invocation in a run of the process: a register (with
the value the engine would use for `datetime('now')`), a login, a
logout, or a whoami. -/
inductive AuthOp where
  | reg (now : String) (request : RegisterRequest)
  | log (request : LoginRequest)
  | out
  | who
deriving DecidableEq, Repr

/-- The state after one command invocation. -/
def stepOp (H : Hasher) (st : DbState) : AuthOp → DbState
  | .reg now request => (register_user H now request st).2
  | .log request => (login_user H request st).2
  | .out => (logout_user st).2
  | .who => (get_current_user st).2

/-- The state after a sequence of command invocations. -/
def runOps (H : Hasher) (st : DbState) : List AuthOp → DbState
  | [] => st
  | op :: ops => runOps H (stepOp H st op) ops

/-- The session-relevant outcome of one command invocation, read off
the command's response alone: `some v` when the command is a register
or login returning `success = true` (with `v` the `user` field of that
response) or a logout (with `v = none`); `none` when the command is one
that the claim says leaves the session untouched (a failed or errored
register/login, or a whoami). -/
def opAuthResult (H : Hasher) (st : DbState) : AuthOp → Option (Option User)
  | .reg now request =>
    match (register_user H now request st).1 with
    | .ok r => if r.success then some r.user else none
    | .error _ => none
  | .log request =>
    match (login_user H request st).1 with
    | .ok r => if r.success then some r.user else none
    | .error _ => none
  | .out => some none
  | .who => none

/-- The session contents predicted by the claim from the responses
alone: the `user` of the most recent successful register or login,
`none` after a more recent logout, the starting value if neither has
occurred. -/
def expectedSession (H : Hasher) (st : DbState) : List AuthOp → Option User → Option User
  | [], acc => acc
  | op :: ops, acc =>
    expectedSession H (stepOp H st op) ops
      (match opAuthResult H st op with
       | some v => v
       | none => acc)

/-- The observable lock and verification events of one `login_user`
invocation. -/
inductive LoginEvent where
  | lockStore
  | queryUserRow
  | verifyPassword
  | lockSession
  | setSession
  | unlockSession
  | unlockStore
deriving DecidableEq, Repr

/-- Event order of `login_user` (auth.rs lines 217-284) for a request
that passes validation, transcribed from the source: the connection
guard `conn` obtained at line 231 is a `MutexGuard` bound for the rest
of the function body, so it is dropped — releasing the Store lock —
only when the function returns, on every path (including the early
`return` at line 255); the session mutex at line 270 is locked and
unlocked within that single statement. `userFound` selects the branch
of the `match` at line 248, `passwordValid` the outcome of
`bcrypt::verify` at line 251. -/
def login_events (userFound passwordValid : Bool) : List LoginEvent :=
  if userFound then
    if passwordValid then
      [.lockStore, .queryUserRow, .verifyPassword,
       .lockSession, .setSession, .unlockSession, .unlockStore]
    else
      [.lockStore, .queryUserRow, .verifyPassword, .unlockStore]
  else
    [.lockStore, .queryUserRow, .unlockStore]

/-- Whether some `verifyPassword` event of the trace occurs while the
Store lock is held, i.e. after a `lockStore` and before the matching
`unlockStore`: a left fold tracking (lock currently held, violation
seen so far). -/
def verifyWhileStoreLocked (evs : List LoginEvent) : Bool :=
  (evs.foldl
    (fun acc ev =>
      match ev with
      | .lockStore => (true, acc.2)
      | .unlockStore => (false, acc.2)
      | .verifyPassword => (acc.1, acc.2 || acc.1)
      | _ => acc)
    ((false, false) : Bool × Bool)).2

/-- The model hasher satisfies the §4.2 contract. -/
theorem bcryptModel_sound : bcryptModel.Sound := by
  intro p d hpd
  have hd : d = "$2b$12$" ++ p := by
    simpa [bcryptModel] using hpd.symm
  subst hd
  constructor
  · simp [bcryptModel]
  · intro q hq
    simp only [bcryptModel, Except.ok.injEq]
    rw [beq_eq_false_iff_ne]
    intro hc
    exact hq (by
      have := congrArg String.data hc
      simp only [String.data_append] at this
      exact String.ext (List.append_cancel_left this))

/-- Characterisation of a successful `register_user` run: it implies
that validation passed, hashing succeeded, the duplicate probe and the
insert constraint checks were clean, and it determines the response and
the final state exactly. -/
theorem register_success_spec (H : Hasher) (now : String) (request : RegisterRequest)
    (st st' : DbState) (r : AuthResponse)
    (hreg : register_user H now request st = (.ok r, st'))
    (hs : r.success = true) :
    ∃ d, H.hash request.password = .ok d ∧
      request.username.isEmpty = false ∧
      request.password.isEmpty = false ∧
      request.email.isEmpty = false ∧
      ¬ request.password.utf8ByteSize < 6 ∧
      st.users.find? (fun row =>
        row.username == request.username || row.email == request.email) = none ∧
      st.users.any (fun row => row.id == st.next_id) = false ∧
      st.user_preferences.any (fun pr => pr.user_id == st.next_id) = false ∧
      r = { success := true
            message := "Registration successful"
            user := some { id := st.next_id, username := request.username,
                           email := request.email, created_at := now } } ∧
      st' = { st with
              users := st.users ++ [{ id := st.next_id, username := request.username,
                                      email := request.email, password_hash := d,
                                      created_at := now }]
              user_preferences := st.user_preferences ++ [defaultUserPreferences st.next_id]
              next_id := st.next_id + 1
              current_user := some { id := st.next_id, username := request.username,
                                     email := request.email, created_at := now } } := by
  simp only [register_user] at hreg
  split at hreg
  · simp only [Prod.mk.injEq, Except.ok.injEq] at hreg
    rw [← hreg.1] at hs
    simp at hs
  · split at hreg
    · simp only [Prod.mk.injEq, Except.ok.injEq] at hreg
      rw [← hreg.1] at hs
      simp at hs
    · rename_i hvalid hlen
      split at hreg
      · exact absurd hreg (by simp)
      · rename_i d hhash
        split at hreg
        · simp only [Prod.mk.injEq, Except.ok.injEq] at hreg
          rw [← hreg.1] at hs
          simp at hs
        · rename_i hfind
          split at hreg
          · exact absurd hreg (by simp)
          · rename_i hany
            split at hreg
            · exact absurd hreg (by simp)
            · rename_i hprefany
              split at hreg
              · rename_i hreread
                exact absurd hreg (by simp)
              · rename_i row hreread
                have hrow : row = { id := st.next_id, username := request.username,
                                    email := request.email, password_hash := d,
                                    created_at := now } := by
                  rw [List.find?_append] at hreread
                  rw [List.find?_eq_none.mpr] at hreread
                  · simp at hreread
                    exact hreread.symm
                  · intro x hx
                    have hany2 : st.users.any (fun row => row.id == st.next_id) = false := by
                      simpa using hany
                    simpa using List.any_eq_false.mp hany2 x hx
                subst hrow
                simp only [Prod.mk.injEq, Except.ok.injEq] at hreg
                simp at hvalid
                obtain ⟨⟨hu, hp⟩, he⟩ := hvalid
                refine ⟨d, hhash, hu, hp, he, ?_, hfind, ?_, ?_, ?_, ?_⟩
                · exact hlen
                · simpa using hany
                · simpa using hprefany
                · exact hreg.1.symm
                · exact hreg.2.symm

/-- If the duplicate probe of `register_user` finds nothing, then in
particular no stored row has the probed username. -/
theorem find?_username_of_dup_none (users : List UserRow) (u e : String)
    (h : users.find? (fun row => row.username == u || row.email == e) = none) :
    users.find? (fun row => row.username == u) = none := by
  rw [List.find?_eq_none] at h ⊢
  intro x hx hc
  exact h x hx (by simp [hc])

/-- C1: after a successful `register(u, e, p)`, `login(u, p)` succeeds
with a user snapshot whose username is `u`, and `login(u, q)` returns
`success = false` for every `q ≠ p`. -/
theorem C1_round_trip_auth (H : Hasher) (hsound : H.Sound) (u e p now : String)
    (st st' : DbState) (r : AuthResponse)
    (hreg : register_user H now { username := u, email := e, password := p } st = (.ok r, st'))
    (hs : r.success = true) :
    (∃ r2 usr, (login_user H { username := u, password := p } st').1 = .ok r2 ∧
       r2.success = true ∧ r2.user = some usr ∧ usr.username = u) ∧
    (∀ q, q ≠ p → ∃ r3, (login_user H { username := u, password := q } st').1 = .ok r3 ∧
       r3.success = false) := by
  obtain ⟨d, hhash, hu, hp, he, hlen, hfind, hany, hprefany, hr, hst⟩ :=
    register_success_spec H now _ st st' r hreg hs
  subst hst
  obtain ⟨hvt, hvf⟩ := hsound p d hhash
  have hq : st.users.find? (fun row => row.username == u) = none :=
    find?_username_of_dup_none st.users u e hfind
  constructor
  · refine ⟨{ success := true, message := "Login successful",
              user := some { id := st.next_id, username := u, email := e, created_at := now } },
            { id := st.next_id, username := u, email := e, created_at := now },
            ?_, rfl, rfl, rfl⟩
    simp [login_user, hu, hp, hq, hvt]
  · intro q hqp
    by_cases hqe : q.isEmpty
    · exact ⟨{ success := false, message := "Username and password are required", user := none },
             by simp [login_user, hqe], rfl⟩
    · exact ⟨{ success := false, message := "Invalid username or password", user := none },
             by simp [login_user, hu, hqe, hq, hvf q hqp], rfl⟩

/-- A concrete register run used to instantiate witnesses: the state
after registering alice on a fresh store. -/
def aliceUser : User :=
  { id := 1, username := "alice", email := "alice@x", created_at := "t0" }

/-- The stored row for alice under the model hasher. -/
def aliceRow : UserRow :=
  { id := 1, username := "alice", email := "alice@x",
    password_hash := "$2b$12$secret1", created_at := "t0" }

/-- The store state after registering alice on a fresh store. -/
def aliceState : DbState :=
  { users := [aliceRow]
    user_recipes := []
    user_measurements := []
    user_preferences := [defaultUserPreferences 1]
    next_id := 2
    current_user := some aliceUser
    foreign_keys_on := false }

/-- The response of that registration. -/
def aliceResponse : AuthResponse :=
  { success := true, message := "Registration successful", user := some aliceUser }

/-- Witness for C1: the round-trip property evaluated at the concrete
registration of alice on a fresh store. -/
theorem C1_round_trip_auth_witness :
    (∃ r2 usr, (login_user bcryptModel { username := "alice", password := "secret1" } aliceState).1 = .ok r2 ∧
       r2.success = true ∧ r2.user = some usr ∧ usr.username = "alice") ∧
    (∀ q, q ≠ "secret1" → ∃ r3,
       (login_user bcryptModel { username := "alice", password := q } aliceState).1 = .ok r3 ∧
       r3.success = false) :=
  C1_round_trip_auth bcryptModel bcryptModel_sound "alice" "alice@x" "secret1" "t0"
    DbState.new aliceState aliceResponse (by decide) (by decide)

/-- C2: a register call that passes input validation and hashing, made
against a store already holding a row with the same username or email,
returns `success = false` with exactly the duplicate-user message and
leaves the whole store state unchanged. -/
theorem C2_duplicate_rejected (H : Hasher) (now : String) (request : RegisterRequest)
    (st : DbState) (d : String)
    (hu : request.username.isEmpty = false)
    (hp : request.password.isEmpty = false)
    (he : request.email.isEmpty = false)
    (hlen : ¬ request.password.utf8ByteSize < 6)
    (hhash : H.hash request.password = .ok d)
    (row : UserRow) (hmem : row ∈ st.users)
    (hdup : row.username = request.username ∨ row.email = request.email) :
    register_user H now request st =
      (.ok { success := false, message := "Username or email already exists", user := none },
       st) := by
  have hfind : (st.users.find? (fun x =>
      x.username == request.username || x.email == request.email)).isSome := by
    rw [List.find?_isSome]
    exact ⟨row, hmem, by rcases hdup with h | h <;> simp [h]⟩
  obtain ⟨row', hrow'⟩ := Option.isSome_iff_exists.mp hfind
  simp [register_user, hu, hp, he, hlen, hhash, hrow']

/-- Witness for C2: re-registering alice with a fresh email against the
state that already holds her row. -/
theorem C2_duplicate_rejected_witness :
    register_user bcryptModel "t1"
        { username := "alice", email := "other@x", password := "another1" } aliceState =
      (.ok { success := false, message := "Username or email already exists", user := none },
       aliceState) :=
  C2_duplicate_rejected bcryptModel "t1" _ aliceState "$2b$12$another1"
    (by decide) (by decide) (by decide) (by decide) (by decide)
    aliceRow (by decide) (Or.inl rfl)

/-- C3: for a login whose username matches no stored row and a login
that finds a row but whose password verification returns a negative
match, the two responses are identical, both being the generic
`success = false` response with no user. -/
theorem C3_non_disclosure (H : Hasher) (st : DbState) (r1 r2 : LoginRequest)
    (h1u : r1.username.isEmpty = false) (h1p : r1.password.isEmpty = false)
    (h2u : r2.username.isEmpty = false) (h2p : r2.password.isEmpty = false)
    (hnone : st.users.find? (fun row => row.username == r1.username) = none)
    (row : UserRow)
    (hfound : st.users.find? (fun row => row.username == r2.username) = some row)
    (hver : H.verify r2.password row.password_hash = .ok false) :
    (login_user H r1 st).1 = (login_user H r2 st).1 ∧
    (login_user H r1 st).1 =
      .ok { success := false, message := "Invalid username or password", user := none } := by
  have e1 : (login_user H r1 st).1 =
      .ok { success := false, message := "Invalid username or password", user := none } := by
    simp [login_user, h1u, h1p, hnone]
  have e2 : (login_user H r2 st).1 =
      .ok { success := false, message := "Invalid username or password", user := none } := by
    simp [login_user, h2u, h2p, hfound, hver]
  exact ⟨e1.trans e2.symm, e1⟩

/-- Witness for C3: an unknown username and a wrong password for alice
against the state holding her row. -/
theorem C3_non_disclosure_witness :
    (login_user bcryptModel { username := "nosuch", password := "whatever" } aliceState).1 =
      (login_user bcryptModel { username := "alice", password := "wrongpw" } aliceState).1 ∧
    (login_user bcryptModel { username := "nosuch", password := "whatever" } aliceState).1 =
      .ok { success := false, message := "Invalid username or password", user := none } :=
  C3_non_disclosure bcryptModel aliceState _ _
    (by decide) (by decide) (by decide) (by decide) (by decide)
    aliceRow (by decide) (by decide)

/-- C8: when password verification itself errors, `login_user` returns
a command-level error carrying the underlying message and the state —
in particular the session slot — is unchanged. -/
theorem C8_verify_error_propagates (H : Hasher) (request : LoginRequest) (st : DbState)
    (hu : request.username.isEmpty = false) (hp : request.password.isEmpty = false)
    (row : UserRow)
    (hfound : st.users.find? (fun x => x.username == request.username) = some row)
    (e : String)
    (hver : H.verify request.password row.password_hash = .error e) :
    login_user H request st = (.error ("Password verification error: " ++ e), st) := by
  simp [login_user, hu, hp, hfound, hver]

/-- Witness for C8: a hasher whose verification errors, applied to the
stored row for alice. -/
theorem C8_verify_error_propagates_witness :
    login_user failingHasher { username := "alice", password := "secret1" } aliceState =
      (.error ("Password verification error: " ++ "verify failure"), aliceState) :=
  C8_verify_error_propagates failingHasher _ aliceState (by decide) (by decide)
    aliceRow (by decide) "verify failure" (by decide)

/-- C9 (amended): a register call with non-empty fields whose password
is shorter than 6 UTF-8 bytes is rejected with exactly the
short-password message before any hashing (the statement holds for
every hasher, including one that always errors) and before any store
access (the state is returned unchanged). -/
theorem C9_short_password_rejected (H : Hasher) (now : String) (request : RegisterRequest)
    (st : DbState)
    (hu : request.username.isEmpty = false) (hp : request.password.isEmpty = false)
    (he : request.email.isEmpty = false)
    (hlen : request.password.utf8ByteSize < 6) :
    register_user H now request st =
      (.ok { success := false, message := "Password must be at least 6 characters", user := none },
       st) := by
  simp [register_user, hu, hp, he, hlen]

/-- Witness for the amended C9: the five-byte password `"12345"` is
rejected, even under the always-failing hasher. -/
theorem C9_short_password_rejected_witness :
    register_user failingHasher "t0"
        { username := "bob", email := "bob@x", password := "12345" } DbState.new =
      (.ok { success := false, message := "Password must be at least 6 characters", user := none },
       DbState.new) :=
  C9_short_password_rejected failingHasher "t0" _ DbState.new
    (by decide) (by decide) (by decide) (by decide)

/-- Counterexample to C9 as stated: `"ééééé"` has 5 characters, so the
claim demands rejection with the short-password message, but its UTF-8
length is 10 bytes, so the code accepts it and the registration
succeeds. -/
theorem C9_counterexample :
    "ééééé".length = 5 ∧
    (register_user bcryptModel "t0"
        { username := "bob", email := "bob@x", password := "ééééé" } DbState.new).1 =
      .ok { success := true, message := "Registration successful",
            user := some { id := 1, username := "bob", email := "bob@x", created_at := "t0" } } :=
  ⟨by decide, by decide⟩

/-- C10: `logout_user` always returns `Ok` with `success = true` and no
user, `get_current_user` always returns `Ok` with the session snapshot,
and neither touches any of the four tables. -/
theorem C10_logout_whoami_frame (st : DbState) :
    (∃ r, (logout_user st).1 = .ok r ∧ r.success = true ∧ r.user = none) ∧
    (logout_user st).2.users = st.users ∧
    (logout_user st).2.user_preferences = st.user_preferences ∧
    (logout_user st).2.user_recipes = st.user_recipes ∧
    (logout_user st).2.user_measurements = st.user_measurements ∧
    (get_current_user st).1 = .ok st.current_user ∧
    (get_current_user st).2 = st :=
  ⟨⟨_, rfl, rfl, rfl⟩, rfl, rfl, rfl, rfl, rfl, rfl⟩

/-- C6: after every successful registration, the `user_preferences`
rows keyed by the new user's id are exactly one row carrying every
documented default. -/
theorem C6_preferences_coupling (H : Hasher) (now : String) (request : RegisterRequest)
    (st st' : DbState) (r : AuthResponse) (usr : User)
    (hreg : register_user H now request st = (.ok r, st'))
    (hs : r.success = true) (huser : r.user = some usr) :
    st'.user_preferences.filter (fun pr => pr.user_id == usr.id) =
      [defaultUserPreferences usr.id] := by
  obtain ⟨d, hhash, hu, hp, he, hlen, hfind, hany, hprefany, hr, hst⟩ :=
    register_success_spec H now request st st' r hreg hs
  subst hst
  rw [hr] at huser
  simp only [Option.some.injEq] at huser
  subst huser
  rw [List.filter_append, List.filter_eq_nil_iff.mpr]
  · simp [defaultUserPreferences]
  · intro a ha
    simpa using List.any_eq_false.mp hprefany a ha

/-- Witness for C6: the preference rows for alice's id after her
registration on a fresh store. -/
theorem C6_preferences_coupling_witness :
    aliceState.user_preferences.filter (fun pr => pr.user_id == aliceUser.id) =
      [defaultUserPreferences aliceUser.id] :=
  C6_preferences_coupling bcryptModel "t0"
    { username := "alice", email := "alice@x", password := "secret1" }
    DbState.new aliceState aliceResponse aliceUser (by decide) (by decide) (by decide)

/-- C4: contrary to the claim, in every `login_user` invocation that
finds a stored user row the password verification runs while the Store
lock is still held — the connection guard is dropped only at function
exit — whatever the verification outcome. -/
theorem C4_verify_runs_under_store_lock :
    verifyWhileStoreLocked (login_events true true) = true ∧
    verifyWhileStoreLocked (login_events true false) = true :=
  ⟨by decide, by decide⟩

/-- C7: contrary to the claim, `DbState::new` executes no statement
enabling SQLite foreign-key enforcement, so the declared `ON DELETE
CASCADE` clauses are inert: after registering alice on a fresh store
and then deleting her `users` row, the `users` table is empty but her
`user_preferences` row survives, still referencing her id. -/
theorem C7_cascade_not_enabled :
    DbState.newStmts.any SqlStmt.enablesForeignKeys = false ∧
    (delete_user_row (register_user bcryptModel "t0"
        { username := "alice", email := "alice@x", password := "secret1" }
        DbState.new).2 1).users = [] ∧
    (delete_user_row (register_user bcryptModel "t0"
        { username := "alice", email := "alice@x", password := "secret1" }
        DbState.new).2 1).user_preferences = [defaultUserPreferences 1] :=
  ⟨by decide, by decide, by decide⟩

/-- Session effect of one `register_user` call, read off its response:
either the call did not report success and left the session slot
unchanged, or it reported success and stored exactly the returned
user. -/
theorem register_session_cases (H : Hasher) (now : String) (request : RegisterRequest)
    (st : DbState) :
    ((register_user H now request st).2.current_user = st.current_user ∧
      ∀ r, (register_user H now request st).1 = .ok r → r.success = false) ∨
    (∃ r, (register_user H now request st).1 = .ok r ∧ r.success = true ∧
      (register_user H now request st).2.current_user = r.user) := by
  simp only [register_user]
  split
  · left; simp
  · split
    · left; simp
    · split
      · left; simp
      · split
        · left; simp
        · split
          · left; simp
          · split
            · left; simp
            · split
              · left; simp
              · right; exact ⟨_, rfl, rfl, rfl⟩

/-- Session effect of one `login_user` call, read off its response. -/
theorem login_session_cases (H : Hasher) (request : LoginRequest) (st : DbState) :
    ((login_user H request st).2.current_user = st.current_user ∧
      ∀ r, (login_user H request st).1 = .ok r → r.success = false) ∨
    (∃ r, (login_user H request st).1 = .ok r ∧ r.success = true ∧
      (login_user H request st).2.current_user = r.user) := by
  simp only [login_user]
  split
  · left; simp
  · split
    · split
      · left; simp
      · split
        · left; simp
        · right; exact ⟨_, rfl, rfl, rfl⟩
    · left; simp

/-- The session slot after one command is predicted by the command's
response: the returned user on a successful register/login, emptied by
logout, untouched otherwise. -/
theorem stepOp_current_user (H : Hasher) (st : DbState) (op : AuthOp) :
    (stepOp H st op).current_user =
      (match opAuthResult H st op with
       | some v => v
       | none => st.current_user) := by
  cases op with
  | reg now request =>
    simp only [stepOp, opAuthResult]
    rcases register_session_cases H now request st with ⟨hcu, hfail⟩ | ⟨r, hok, hs, hcu⟩
    · rw [hcu]
      cases hres : (register_user H now request st).1 with
      | ok r => simp [hfail r hres]
      | error e => rfl
    · rw [hok]
      simp [hs, hcu]
  | log request =>
    simp only [stepOp, opAuthResult]
    rcases login_session_cases H request st with ⟨hcu, hfail⟩ | ⟨r, hok, hs, hcu⟩
    · rw [hcu]
      cases hres : (login_user H request st).1 with
      | ok r => simp [hfail r hres]
      | error e => rfl
    · rw [hok]
      simp [hs, hcu]
  | out => rfl
  | who => rfl

/-- Generalised session invariant behind C5: along any run, the
session slot equals the fold of the session-relevant outcomes over the
accumulated responses. -/
theorem runOps_current_user (H : Hasher) :
    ∀ (ops : List AuthOp) (st : DbState) (acc : Option User),
      st.current_user = acc →
      (runOps H st ops).current_user = expectedSession H st ops acc := by
  intro ops
  induction ops with
  | nil =>
    intro st acc h
    simpa [runOps, expectedSession] using h
  | cons op ops ih =>
    intro st acc h
    simp only [runOps, expectedSession]
    apply ih
    rw [stepOp_current_user]
    cases hop : opAuthResult H st op with
    | some v => rfl
    | none => exact h

/-- C5: starting from process start (empty session), after any finite
sequence of register/login/logout/whoami commands, `get_current_user`
returns exactly the user of the most recent register or login that
returned `success = true`, and nothing if there was none or a logout
happened since. -/
theorem C5_session_monotonicity (H : Hasher) (st : DbState) (ops : List AuthOp)
    (hstart : st.current_user = none) :
    (get_current_user (runOps H st ops)).1 = .ok (expectedSession H st ops none) := by
  simp only [get_current_user]
  rw [runOps_current_user H ops st none hstart]

/-- Witness for C5 on a concrete run: register alice, logout, a failed
login, a whoami, then a successful login. -/
theorem C5_session_monotonicity_witness :
    (get_current_user (runOps bcryptModel DbState.new
        [ .reg "t0" { username := "alice", email := "alice@x", password := "secret1" }
        , .out
        , .log { username := "alice", password := "wrongpw" }
        , .who
        , .log { username := "alice", password := "secret1" } ])).1 =
      .ok (expectedSession bcryptModel DbState.new
        [ .reg "t0" { username := "alice", email := "alice@x", password := "secret1" }
        , .out
        , .log { username := "alice", password := "wrongpw" }
        , .who
        , .log { username := "alice", password := "secret1" } ] none) :=
  C5_session_monotonicity bcryptModel DbState.new _ rfl
